import Mathlib

/-!
Verification of the epd-waveshare e-paper display driver family against its
natural-language specification. The six driver modules (epd1in54c, epd2in7b,
epd2in9bc, epd3in7, epd7in5, epd7in5_hd) are embedded shallowly: every
bus-facing method becomes a pure function producing the ordered trace of
protocol events (reset pulses, command bytes, data bytes, delays, busy-waits)
it would issue, together with an outcome (normal return or panic) and the
updated driver state. The shared support code of the crate that is not part
of the staged sources (the display interface, the color type, buffer_len,
the waveform constant tables) is modelled from the specification and marked
as such; the per-model constant tables enter as parameters so that no claim
depends on their contents.
-/

/-- Modelled from the spec: the per-model command opcodes (the command.rs
modules are not part of the staged sources). The spec describes a command as
an opaque per-model operation code tagged with semantic meaning, so commands
are embedded as one closed enumeration of the constructor names the six
driver modules use; distinct constructors stand for distinct opcodes. -/
inductive Cmd where
  | PowerOn
  | PowerOff
  | PanelSetting
  | PllControl
  | PowerSetting
  | BoosterSoftStart
  | PowerOptimization
  | VcmDcSetting
  | VcomAndDataIntervalSetting
  | PartialDisplayRefresh
  | DataStartTransmission1
  | DataStartTransmission2
  | DataStop
  | PartialDataStartTransmission1
  | PartialDataStartTransmission2
  | DisplayRefresh
  | DeepSleep
  | LutForVcom
  | LutWhiteToWhite
  | LutBlackToWhite
  | LutWhiteToBlack
  | LutBlackToBlack
  | SwReset
  | AutoWriteRedRamRegularPattern
  | AutoWriteBwRamRegularPattern
  | GateSetting
  | GateVoltage
  | GateVoltageSource
  | DataEntrySequence
  | BorderWaveformControl
  | BoosterSoftStartControl
  | TemperatureSensorSelection
  | WriteVcomRegister
  | DisplayOption
  | SetRamXAddressStartEndPosition
  | SetRamYAddressStartEndPosition
  | DisplayUpdateSequenceSetting
  | SetRamXAddressCounter
  | SetRamYAddressCounter
  | WriteRam
  | DisplayUpdateSequence
  | Sleep
  | Sleep2
  | WriteLutRegister
  | ResolutionSetting
  | TemperatureCalibration
  | TconSetting
  | TconResolution
  | FlashMode
  | AutoWriteRed
  | AutoWriteBw
  | SoftStart
  | DriverOutputControl
  | DataEntry
  | SetRamXStartEnd
  | SetRamYStartEnd
  | VbdControl
  | TemperatureSensorControl
  | DisplayUpdateControl2
  | MasterActivation
  | SetRamXAc
  | SetRamYAc
  | WriteRamBw
  | WriteRamRed
deriving DecidableEq, Repr

/-- One observable protocol event of a driver operation: a timed reset pulse,
a command byte, a data byte, a blocking delay, or a poll-until-idle on the
busy line with the model's idle polarity. Command and data bytes are the bus
traffic; reset, delay and busy-wait touch only GPIO lines and time. -/
inductive Event where
  | reset (assert_us settle_us : Nat)
  | cmd (c : Cmd)
  | data (b : Nat)
  | delay_us (us : Nat)
  | wait_idle (is_busy_low : Bool)
deriving DecidableEq, Repr

/-- Modelled from the spec: the shared color type of crate::color (color.rs is
not part of the staged sources). Per the spec's ColorByteValue and the EPD
7in5 HD module documentation in the sources, White maps to the wire byte 0xFF
and Black to 0x00. -/
inductive Color where
  | Black
  | White
deriving DecidableEq, Repr

/-- Modelled from the spec: Color::get_byte_value, the logical-color to
wire-byte mapping (White = 0xFF, Black = 0x00). -/
def Color.get_byte_value : Color → Nat
  | .Black => 0x00
  | .White => 0xff

/-- Bitwise complement of a byte, as Rust's `!` on u8: all eight bits flip. -/
def inv8 (b : Nat) : Nat :=
  255 - b % 256

/-- Modelled from the spec: crate::buffer_len (lib.rs is not part of the
staged sources); the spec fixes the expected 1-bit-plane buffer length as
ceil(width * height / 8). -/
def buffer_len (width height : Nat) : Nat :=
  (width * height + 7) / 8

namespace DisplayInterface

/-- Modelled from the spec: ProtocolInterface.sendCommand sets the select
line to command and transfers the one opcode byte. -/
def cmd (c : Cmd) : List Event :=
  [Event.cmd c]

/-- Modelled from the spec: ProtocolInterface.sendData transfers the byte
sequence with the select line on data (burst or per-byte framing moves the
same bytes in the same order). -/
def data (bytes : List Nat) : List Event :=
  bytes.map Event.data

/-- Modelled from the spec: ProtocolInterface.sendCommandWithData, the atomic
composition of sendCommand and sendData. -/
def cmd_with_data (c : Cmd) (bytes : List Nat) : List Event :=
  Event.cmd c :: bytes.map Event.data

/-- Modelled from the spec: ProtocolInterface.repeatByte streams one byte
value count times (data_x_times in the sources). -/
def data_x_times (b : Nat) (count : Nat) : List Event :=
  List.replicate count (Event.data b)

/-- Modelled from the spec: ProtocolInterface.reset drives the reset line
low then high with the two given timings. -/
def reset (assert_us settle_us : Nat) : List Event :=
  [Event.reset assert_us settle_us]

/-- Modelled from the spec: ProtocolInterface.waitUntilIdle polls the busy
line until the configured idle level is observed. -/
def wait_until_idle (is_busy_low : Bool) : List Event :=
  [Event.wait_idle is_busy_low]

/-- Modelled from the spec: the microsecond-granularity delay provider. -/
def delay (us : Nat) : List Event :=
  [Event.delay_us us]

end DisplayInterface

/-- The outcome of one driver method: a normal return carrying the emitted
event trace, or a panic (Rust assert!/todo!/unimplemented!) carrying the
trace emitted before the abort. -/
inductive Outcome where
  | ok (tr : List Event)
  | panic (tr : List Event)
deriving DecidableEq, Repr

/-- The event trace an outcome emitted, normal or aborted. -/
def Outcome.tr : Outcome → List Event
  | .ok t => t
  | .panic t => t

/-- Whether the outcome is a normal return. -/
def Outcome.isOk : Outcome → Bool
  | .ok _ => true
  | .panic _ => false

/-- Sequencing of two method outcomes as Rust's ? operator composes them: a
panic in the first step aborts the whole composite with the first trace; the
second step runs only after a normal first step. -/
def Outcome.andThen : Outcome → Outcome → Outcome
  | .panic t, _ => .panic t
  | .ok t, .panic u => .panic (t ++ u)
  | .ok t, .ok u => .ok (t ++ u)

/-- Whether an event is bus traffic: a command byte or a data byte. Reset
pulses, delays and busy-polling touch only GPIO lines and time. -/
def Event.isBus : Event → Bool
  | .cmd _ => true
  | .data _ => true
  | _ => false

/-- The command/data byte trace of an event trace: its bus events in order. -/
def busFilter (tr : List Event) : List Event :=
  tr.filter Event.isBus

/-- How many bus bytes a trace transfers. -/
def countBus (tr : List Event) : Nat :=
  (busFilter tr).length

/-- Execution of a straight-line event trace over a bus that completes only
`fuel` byte transfers: non-bus events always run; a bus event consumes one
unit of fuel, and the first bus event past the budget fails the operation at
that point, as a transport fault propagated by ? would. Returns the emitted
prefix and the remaining fuel (none = the operation returned an error). -/
def runBus (fuel : Nat) : List Event → List Event × Option Nat
  | [] => ([], some fuel)
  | e :: tr =>
    if e.isBus then
      match fuel with
      | 0 => ([], none)
      | f + 1 => ((e :: (runBus f tr).1), (runBus f tr).2)
    else
      ((e :: (runBus fuel tr).1), (runBus fuel tr).2)

namespace Epd2in7b

def WIDTH : Nat := 176

def HEIGHT : Nat := 264

def DEFAULT_BACKGROUND_COLOR : Color := Color.White

def IS_BUSY_LOW : Bool := true

/-- Driver state of Epd2in7b: the stored background color (the connection
interface holds no observable state of its own). -/
structure State where
  color : Color
deriving DecidableEq, Repr

def command (c : Cmd) : List Event :=
  DisplayInterface.cmd c

def send_data (bytes : List Nat) : List Event :=
  DisplayInterface.data bytes

def cmd_with_data (c : Cmd) (bytes : List Nat) : List Event :=
  DisplayInterface.cmd_with_data c bytes

/-- send_buffer_helper: every payload byte is bitwise-inverted before
transmission, one bus transaction per byte. -/
def send_buffer_helper (buffer : List Nat) : List Event :=
  buffer.map (fun b => Event.data (inv8 b))

def wait_until_idle (self : State) : Outcome × State :=
  (.ok (DisplayInterface.wait_until_idle IS_BUSY_LOW), self)

/-- set_lut: waits idle, then loads the five waveform tables. The table
contents (constants.rs) are parameters. -/
def set_lut (lut_vcom lut_ww lut_bw lut_wb lut_bb : List Nat) (self : State) :
    Outcome × State :=
  (.ok (DisplayInterface.wait_until_idle IS_BUSY_LOW ++
      cmd_with_data .LutForVcom lut_vcom ++
      cmd_with_data .LutWhiteToWhite lut_ww ++
      cmd_with_data .LutBlackToWhite lut_bw ++
      cmd_with_data .LutWhiteToBlack lut_wb ++
      cmd_with_data .LutBlackToBlack lut_bb), self)

/-- init: reset, power on, panel configuration, LUT load, partial-refresh
register clear, final busy-wait. -/
def init (lut_vcom lut_ww lut_bw lut_wb lut_bb : List Nat) (self : State) :
    Outcome × State :=
  (.ok (DisplayInterface.reset 10000 2000 ++
      command .PowerOn ++
      DisplayInterface.delay 5000 ++
      DisplayInterface.wait_until_idle IS_BUSY_LOW ++
      cmd_with_data .PanelSetting [0xaf] ++
      cmd_with_data .PllControl [0x3a] ++
      cmd_with_data .PowerSetting [0x03, 0x00, 0x2b, 0x2b, 0x09] ++
      cmd_with_data .BoosterSoftStart [0x07, 0x07, 0x17] ++
      cmd_with_data .PowerOptimization [0x60, 0xa5] ++
      cmd_with_data .PowerOptimization [0x89, 0xa5] ++
      cmd_with_data .PowerOptimization [0x90, 0x00] ++
      cmd_with_data .PowerOptimization [0x93, 0x2a] ++
      cmd_with_data .PowerOptimization [0x73, 0x41] ++
      cmd_with_data .VcmDcSetting [0x12] ++
      cmd_with_data .VcomAndDataIntervalSetting [0x87] ++
      (set_lut lut_vcom lut_ww lut_bw lut_wb lut_bb self).1.tr ++
      cmd_with_data .PartialDisplayRefresh [0x00] ++
      DisplayInterface.wait_until_idle IS_BUSY_LOW), self)

/-- new: builds the interface, stores the default background color, runs
init. -/
def new (lut_vcom lut_ww lut_bw lut_wb lut_bb : List Nat) : Outcome × State :=
  init lut_vcom lut_ww lut_bw lut_wb lut_bb { color := DEFAULT_BACKGROUND_COLOR }

/-- wake_up: re-runs init. -/
def wake_up (lut_vcom lut_ww lut_bw lut_wb lut_bb : List Nat) (self : State) :
    Outcome × State :=
  init lut_vcom lut_ww lut_bw lut_wb lut_bb self

def sleep (self : State) : Outcome × State :=
  (.ok (DisplayInterface.wait_until_idle IS_BUSY_LOW ++
      cmd_with_data .VcomAndDataIntervalSetting [0xf7] ++
      command .PowerOff ++
      DisplayInterface.wait_until_idle IS_BUSY_LOW ++
      cmd_with_data .DeepSleep [0xA5]), self)

/-- update_frame: streams the inverted buffer as the achromatic plane, then
clears the chromatic plane with the complement of the background byte. -/
def update_frame (self : State) (buffer : List Nat) : Outcome × State :=
  (.ok (command .DataStartTransmission1 ++
      send_buffer_helper buffer ++
      command .DataStartTransmission2 ++
      DisplayInterface.data_x_times (inv8 self.color.get_byte_value)
        (WIDTH * HEIGHT / 8) ++
      command .DataStop), self)

/-- update_partial_frame: sends the rectangle header (x and width masked to
8-pixel granules), waits idle, then streams the inverted buffer. -/
def update_partial_frame (self : State) (buffer : List Nat)
    (x y width height : Nat) : Outcome × State :=
  (.ok (command .PartialDataStartTransmission1 ++
      send_data [(x >>> 8) % 256] ++
      send_data [x &&& 0xf8] ++
      send_data [(y >>> 8) % 256] ++
      send_data [y &&& 0xff] ++
      send_data [(width >>> 8) % 256] ++
      send_data [width &&& 0xf8] ++
      send_data [(height >>> 8) % 256] ++
      send_data [height &&& 0xff] ++
      DisplayInterface.wait_until_idle IS_BUSY_LOW ++
      send_buffer_helper buffer ++
      command .DataStop), self)

def display_frame (self : State) : Outcome × State :=
  (.ok (command .DisplayRefresh ++
      DisplayInterface.wait_until_idle IS_BUSY_LOW), self)

/-- update_and_display_frame: update_frame, then the refresh command directly
(no trailing busy-wait in this model). -/
def update_and_display_frame (self : State) (buffer : List Nat) :
    Outcome × State :=
  ((update_frame self buffer).1.andThen (.ok (command .DisplayRefresh)), self)

/-- clear_frame: waits idle, then fills both planes with the background
color's byte value, uninverted. -/
def clear_frame (self : State) : Outcome × State :=
  (.ok (DisplayInterface.wait_until_idle IS_BUSY_LOW ++
      command .DataStartTransmission1 ++
      DisplayInterface.data_x_times self.color.get_byte_value
        (WIDTH * HEIGHT / 8) ++
      command .DataStop ++
      command .DataStartTransmission2 ++
      DisplayInterface.data_x_times self.color.get_byte_value
        (WIDTH * HEIGHT / 8) ++
      command .DataStop), self)

def set_background_color (_self : State) (color : Color) : State :=
  { color := color }

def background_color (self : State) : Color :=
  self.color

def update_achromatic_frame (self : State) (achromatic : List Nat) :
    Outcome × State :=
  (.ok (command .DataStartTransmission1 ++
      send_buffer_helper achromatic ++
      command .DataStop), self)

def update_chromatic_frame (self : State) (chromatic : List Nat) :
    Outcome × State :=
  (.ok (command .DataStartTransmission2 ++
      send_buffer_helper chromatic ++
      command .DataStop ++
      DisplayInterface.wait_until_idle IS_BUSY_LOW), self)

def update_color_frame (self : State) (black chromatic : List Nat) :
    Outcome × State :=
  ((update_achromatic_frame self black).1.andThen
    (update_chromatic_frame self chromatic).1, self)

end Epd2in7b

namespace EPD3in7

def WIDTH : Nat := 280

def HEIGHT : Nat := 480

def DEFAULT_BACKGROUND_COLOR : Color := Color.White

def IS_BUSY_LOW : Bool := false

/-- Driver state of EPD3in7: the stored background color. -/
structure State where
  background_color : Color
deriving DecidableEq, Repr

/-- set_lut: writes the 1-gray waveform table for the requested refresh mode
(Full or absent selects the GC table, Quick the DU table). The table contents
(constants.rs) are parameters. -/
def set_lut (lut_gc lut_du : List Nat) (self : State)
    (refresh_rate : Option Bool) : Outcome × State :=
  (.ok (DisplayInterface.cmd_with_data .WriteLutRegister
      (match refresh_rate with
        | some true => lut_du
        | _ => lut_gc)), self)

/-- init: reset, software reset with settle delay, RAM auto-write patterns,
gate/booster/temperature/VCOM configuration, RAM windows, update sequence
setting, full-refresh LUT load. -/
def init (lut_gc lut_du : List Nat) (self : State) : Outcome × State :=
  (.ok (DisplayInterface.reset 30 10 ++
      DisplayInterface.cmd .SwReset ++
      DisplayInterface.delay 300000 ++
      DisplayInterface.cmd_with_data .AutoWriteRedRamRegularPattern [0xF7] ++
      DisplayInterface.wait_until_idle IS_BUSY_LOW ++
      DisplayInterface.cmd_with_data .AutoWriteBwRamRegularPattern [0xF7] ++
      DisplayInterface.wait_until_idle IS_BUSY_LOW ++
      DisplayInterface.cmd_with_data .GateSetting [0xDF, 0x01, 0x00] ++
      DisplayInterface.cmd_with_data .GateVoltage [0x00] ++
      DisplayInterface.cmd_with_data .GateVoltageSource [0x41, 0xA8, 0x32] ++
      DisplayInterface.cmd_with_data .DataEntrySequence [0x03] ++
      DisplayInterface.cmd_with_data .BorderWaveformControl [0x03] ++
      DisplayInterface.cmd_with_data .BoosterSoftStartControl
        [0xAE, 0xC7, 0xC3, 0xC0, 0xC0] ++
      DisplayInterface.cmd_with_data .TemperatureSensorSelection [0x80] ++
      DisplayInterface.cmd_with_data .WriteVcomRegister [0x44] ++
      DisplayInterface.cmd_with_data .DisplayOption
        [0x00, 0xFF, 0xFF, 0xFF, 0xFF, 0x4F, 0xFF, 0xFF, 0xFF, 0xFF] ++
      DisplayInterface.cmd_with_data .SetRamXAddressStartEndPosition
        [0x00, 0x00, 0x17, 0x01] ++
      DisplayInterface.cmd_with_data .SetRamYAddressStartEndPosition
        [0x00, 0x00, 0xDF, 0x01] ++
      DisplayInterface.cmd_with_data .DisplayUpdateSequenceSetting [0xCF] ++
      (set_lut lut_gc lut_du self (some false)).1.tr), self)

/-- new: stores the default background color and runs init. -/
def new (lut_gc lut_du : List Nat) : Outcome × State :=
  init lut_gc lut_du { background_color := DEFAULT_BACKGROUND_COLOR }

/-- wake_up: re-runs init. -/
def wake_up (lut_gc lut_du : List Nat) (self : State) : Outcome × State :=
  init lut_gc lut_du self

def sleep (self : State) : Outcome × State :=
  (.ok (DisplayInterface.cmd_with_data .Sleep [0xF7] ++
      DisplayInterface.cmd .PowerOff ++
      DisplayInterface.cmd_with_data .Sleep2 [0xA5]), self)

def set_background_color (_self : State) (color : Color) : State :=
  { background_color := color }

def background_color (self : State) : Color :=
  self.background_color

/-- update_frame: asserts the buffer length against the geometry before any
bus traffic (a failing assert is a panic with nothing emitted), then resets
both RAM address counters and writes the buffer. -/
def update_frame (self : State) (buffer : List Nat) : Outcome × State :=
  (if buffer.length = buffer_len WIDTH HEIGHT then
    .ok (DisplayInterface.cmd_with_data .SetRamXAddressCounter [0x00, 0x00] ++
      DisplayInterface.cmd_with_data .SetRamYAddressCounter [0x00, 0x00] ++
      DisplayInterface.cmd_with_data .WriteRam buffer)
  else
    .panic [], self)

/-- update_partial_frame is todo!: an unconditional panic with no traffic. -/
def update_partial_frame (self : State) (_buffer : List Nat)
    (_x _y _width _height : Nat) : Outcome × State :=
  (.panic [], self)

def display_frame (self : State) : Outcome × State :=
  (.ok (DisplayInterface.cmd .DisplayUpdateSequence ++
      DisplayInterface.wait_until_idle IS_BUSY_LOW), self)

def update_and_display_frame (self : State) (buffer : List Nat) :
    Outcome × State :=
  ((update_frame self buffer).1.andThen (display_frame self).1, self)

/-- clear_frame: resets the RAM counters, then streams the background color's
byte value WIDTH * HEIGHT times into RAM. -/
def clear_frame (self : State) : Outcome × State :=
  (.ok (DisplayInterface.cmd_with_data .SetRamXAddressCounter [0x00, 0x00] ++
      DisplayInterface.cmd_with_data .SetRamYAddressCounter [0x00, 0x00] ++
      DisplayInterface.cmd .WriteRam ++
      DisplayInterface.data_x_times self.background_color.get_byte_value
        (WIDTH * HEIGHT)), self)

def wait_until_idle (self : State) : Outcome × State :=
  (.ok (DisplayInterface.wait_until_idle IS_BUSY_LOW), self)

end EPD3in7

namespace Epd1in54c

def WIDTH : Nat := 152

def HEIGHT : Nat := 152

def DEFAULT_BACKGROUND_COLOR : Color := Color.White

def IS_BUSY_LOW : Bool := true

def NUM_DISPLAY_BITS : Nat := WIDTH * HEIGHT / 8

/-- Driver state of Epd1in54c: the stored background color. -/
structure State where
  color : Color
deriving DecidableEq, Repr

def wait_until_idle (self : State) : Outcome × State :=
  (.ok (DisplayInterface.wait_until_idle IS_BUSY_LOW), self)

/-- send_resolution: the resolution command and three geometry bytes; the
horizontal byte keeps only HRES[7:3], and the last byte is sent with the
data-select line following the vendor reference code. -/
def send_resolution : List Event :=
  DisplayInterface.cmd .ResolutionSetting ++
    DisplayInterface.data [WIDTH % 256 &&& 0xf8] ++
    DisplayInterface.data [(WIDTH >>> 8) % 256] ++
    DisplayInterface.data [HEIGHT % 256]

/-- init: reset, booster, power on with settle delay and busy-wait, panel
settings, resolution, VCOM/data interval. -/
def init (self : State) : Outcome × State :=
  (.ok (DisplayInterface.reset 10000 2000 ++
      DisplayInterface.cmd_with_data .BoosterSoftStart [0x17, 0x17, 0x17] ++
      DisplayInterface.cmd .PowerOn ++
      DisplayInterface.delay 5000 ++
      DisplayInterface.wait_until_idle IS_BUSY_LOW ++
      DisplayInterface.cmd_with_data .PanelSetting [0x0f, 0x0d] ++
      send_resolution ++
      DisplayInterface.cmd_with_data .VcomAndDataIntervalSetting [0x77]), self)

/-- new: stores the default background color and runs init. -/
def new : Outcome × State :=
  init { color := DEFAULT_BACKGROUND_COLOR }

/-- wake_up: re-runs init. -/
def wake_up (self : State) : Outcome × State :=
  init self

def sleep (self : State) : Outcome × State :=
  (.ok (DisplayInterface.wait_until_idle IS_BUSY_LOW ++
      DisplayInterface.cmd .PowerOff ++
      DisplayInterface.wait_until_idle IS_BUSY_LOW ++
      DisplayInterface.cmd_with_data .DeepSleep [0xa5]), self)

def set_background_color (_self : State) (color : Color) : State :=
  { color := color }

def background_color (self : State) : Color :=
  self.color

def update_achromatic_frame (self : State) (black : List Nat) :
    Outcome × State :=
  (.ok (DisplayInterface.wait_until_idle IS_BUSY_LOW ++
      DisplayInterface.cmd_with_data .DataStartTransmission1 black), self)

def update_chromatic_frame (self : State) (chromatic : List Nat) :
    Outcome × State :=
  (.ok (DisplayInterface.wait_until_idle IS_BUSY_LOW ++
      DisplayInterface.cmd_with_data .DataStartTransmission2 chromatic), self)

def update_color_frame (self : State) (black chromatic : List Nat) :
    Outcome × State :=
  ((update_achromatic_frame self black).1.andThen
    (update_chromatic_frame self chromatic).1, self)

/-- update_frame: streams the buffer as the achromatic plane, then clears the
chromatic plane with the current background color's byte value. -/
def update_frame (self : State) (buffer : List Nat) : Outcome × State :=
  ((update_achromatic_frame self buffer).1.andThen
    (.ok (DisplayInterface.cmd .DataStartTransmission2 ++
      DisplayInterface.data_x_times self.color.get_byte_value
        NUM_DISPLAY_BITS)), self)

/-- update_partial_frame is unimplemented!: an unconditional panic with no
traffic. -/
def update_partial_frame (self : State) (_buffer : List Nat)
    (_x _y _width _height : Nat) : Outcome × State :=
  (.panic [], self)

def display_frame (self : State) : Outcome × State :=
  (.ok (DisplayInterface.cmd .DisplayRefresh ++
      DisplayInterface.wait_until_idle IS_BUSY_LOW), self)

def update_and_display_frame (self : State) (buffer : List Nat) :
    Outcome × State :=
  ((update_frame self buffer).1.andThen (display_frame self).1, self)

/-- clear_frame: waits idle, then fills both planes with the default
background color's byte value (not the currently stored color). -/
def clear_frame (self : State) : Outcome × State :=
  (.ok (DisplayInterface.wait_until_idle IS_BUSY_LOW ++
      DisplayInterface.cmd .DataStartTransmission1 ++
      DisplayInterface.data_x_times DEFAULT_BACKGROUND_COLOR.get_byte_value
        NUM_DISPLAY_BITS ++
      DisplayInterface.cmd .DataStartTransmission2 ++
      DisplayInterface.data_x_times DEFAULT_BACKGROUND_COLOR.get_byte_value
        NUM_DISPLAY_BITS), self)

/-- set_lut: fixed on-chip tables, implemented as a successful no-op. -/
def set_lut (self : State) : Outcome × State :=
  (.ok [], self)

end Epd1in54c

namespace Epd2in9bc

def WIDTH : Nat := 128

def HEIGHT : Nat := 296

def DEFAULT_BACKGROUND_COLOR : Color := Color.White

def NUM_DISPLAY_BITS : Nat := WIDTH * HEIGHT / 8

def IS_BUSY_LOW : Bool := true

def VCOM_DATA_INTERVAL : Nat := 0x07

def WHITE_BORDER : Nat := 0x70

def FLOATING_BORDER : Nat := 0xF0

/-- Driver state of Epd2in9bc: the stored background color. -/
structure State where
  color : Color
deriving DecidableEq, Repr

def wait_until_idle (self : State) : Outcome × State :=
  (.ok (DisplayInterface.wait_until_idle IS_BUSY_LOW), self)

/-- send_resolution: the resolution command and three geometry bytes. -/
def send_resolution : List Event :=
  DisplayInterface.cmd .ResolutionSetting ++
    DisplayInterface.data [WIDTH % 256] ++
    DisplayInterface.data [(HEIGHT >>> 8) % 256] ++
    DisplayInterface.data [HEIGHT % 256]

/-- init: reset, booster, power on with settle delay and busy-wait, panel
settings, white border with VCOM interval, resolution, VCOM DC, busy-wait. -/
def init (self : State) : Outcome × State :=
  (.ok (DisplayInterface.reset 10000 10000 ++
      DisplayInterface.cmd_with_data .BoosterSoftStart [0x17, 0x17, 0x17] ++
      DisplayInterface.cmd .PowerOn ++
      DisplayInterface.delay 5000 ++
      DisplayInterface.wait_until_idle IS_BUSY_LOW ++
      DisplayInterface.cmd_with_data .PanelSetting [0x8F] ++
      DisplayInterface.cmd_with_data .VcomAndDataIntervalSetting
        [WHITE_BORDER ||| VCOM_DATA_INTERVAL] ++
      send_resolution ++
      DisplayInterface.cmd_with_data .VcmDcSetting [0x0A] ++
      DisplayInterface.wait_until_idle IS_BUSY_LOW), self)

/-- new: stores the default background color and runs init. -/
def new : Outcome × State :=
  init { color := DEFAULT_BACKGROUND_COLOR }

/-- wake_up: re-runs init. -/
def wake_up (self : State) : Outcome × State :=
  init self

def sleep (self : State) : Outcome × State :=
  (.ok (DisplayInterface.cmd_with_data .VcomAndDataIntervalSetting
        [FLOATING_BORDER ||| VCOM_DATA_INTERVAL] ++
      DisplayInterface.cmd .PowerOff ++
      DisplayInterface.wait_until_idle IS_BUSY_LOW ++
      DisplayInterface.cmd_with_data .DeepSleep [0xA5]), self)

def set_background_color (_self : State) (color : Color) : State :=
  { color := color }

def background_color (self : State) : Color :=
  self.color

def update_achromatic_frame (self : State) (black : List Nat) :
    Outcome × State :=
  (.ok (DisplayInterface.cmd .DataStartTransmission1 ++
      DisplayInterface.data black), self)

def update_chromatic_frame (self : State) (chromatic : List Nat) :
    Outcome × State :=
  (.ok (DisplayInterface.cmd .DataStartTransmission2 ++
      DisplayInterface.data chromatic ++
      DisplayInterface.wait_until_idle IS_BUSY_LOW), self)

def update_color_frame (self : State) (black chromatic : List Nat) :
    Outcome × State :=
  ((update_achromatic_frame self black).1.andThen
    (update_chromatic_frame self chromatic).1, self)

/-- update_frame: streams the buffer as the achromatic plane, clears the
chromatic plane with the current background color's byte value, waits idle. -/
def update_frame (self : State) (buffer : List Nat) : Outcome × State :=
  (.ok (DisplayInterface.cmd .DataStartTransmission1 ++
      DisplayInterface.data buffer ++
      DisplayInterface.cmd .DataStartTransmission2 ++
      DisplayInterface.data_x_times self.color.get_byte_value
        NUM_DISPLAY_BITS ++
      DisplayInterface.wait_until_idle IS_BUSY_LOW), self)

/-- update_partial_frame: a silent no-op that reports success without any
bus traffic. -/
def update_partial_frame (self : State) (_buffer : List Nat)
    (_x _y _width _height : Nat) : Outcome × State :=
  (.ok [], self)

def display_frame (self : State) : Outcome × State :=
  (.ok (DisplayInterface.cmd .DisplayRefresh ++
      DisplayInterface.wait_until_idle IS_BUSY_LOW), self)

def update_and_display_frame (self : State) (buffer : List Nat) :
    Outcome × State :=
  ((update_frame self buffer).1.andThen (display_frame self).1, self)

/-- clear_frame: sends the resolution, then fills both planes with the
default background color's byte value (not the currently stored color), and
waits idle. -/
def clear_frame (self : State) : Outcome × State :=
  (.ok (send_resolution ++
      DisplayInterface.cmd .DataStartTransmission1 ++
      DisplayInterface.data_x_times DEFAULT_BACKGROUND_COLOR.get_byte_value
        NUM_DISPLAY_BITS ++
      DisplayInterface.cmd .DataStartTransmission2 ++
      DisplayInterface.data_x_times DEFAULT_BACKGROUND_COLOR.get_byte_value
        NUM_DISPLAY_BITS ++
      DisplayInterface.wait_until_idle IS_BUSY_LOW), self)

/-- set_lut: fixed on-chip tables, implemented as a successful no-op. -/
def set_lut (self : State) : Outcome × State :=
  (.ok [], self)

end Epd2in9bc

namespace Epd7in5

def WIDTH : Nat := 640

def HEIGHT : Nat := 384

def DEFAULT_BACKGROUND_COLOR : Color := Color.White

def IS_BUSY_LOW : Bool := true

/-- Driver state of Epd7in5: the stored background color. -/
structure State where
  color : Color
deriving DecidableEq, Repr

def wait_until_idle (self : State) : Outcome × State :=
  (.ok (DisplayInterface.wait_until_idle IS_BUSY_LOW), self)

/-- send_resolution: the TCON resolution command and four geometry bytes. -/
def send_resolution : List Event :=
  DisplayInterface.cmd .TconResolution ++
    DisplayInterface.data [(WIDTH >>> 8) % 256] ++
    DisplayInterface.data [WIDTH % 256] ++
    DisplayInterface.data [(HEIGHT >>> 8) % 256] ++
    DisplayInterface.data [HEIGHT % 256]

/-- init: reset, power and panel settings, booster, power on with settle
delay and busy-wait, PLL, temperature, VCOM interval, TCON, resolution,
VCOM DC, flash mode, busy-wait. -/
def init (self : State) : Outcome × State :=
  (.ok (DisplayInterface.reset 10000 10000 ++
      DisplayInterface.cmd_with_data .PowerSetting [0x37, 0x00] ++
      DisplayInterface.cmd_with_data .PanelSetting [0xCF, 0x08] ++
      DisplayInterface.cmd_with_data .BoosterSoftStart [0xC7, 0xCC, 0x28] ++
      DisplayInterface.cmd .PowerOn ++
      DisplayInterface.delay 5000 ++
      DisplayInterface.wait_until_idle IS_BUSY_LOW ++
      DisplayInterface.cmd_with_data .PllControl [0x3C] ++
      DisplayInterface.cmd_with_data .TemperatureCalibration [0x00] ++
      DisplayInterface.cmd_with_data .VcomAndDataIntervalSetting [0x77] ++
      DisplayInterface.cmd_with_data .TconSetting [0x22] ++
      send_resolution ++
      DisplayInterface.cmd_with_data .VcmDcSetting [0x1E] ++
      DisplayInterface.cmd_with_data .FlashMode [0x03] ++
      DisplayInterface.wait_until_idle IS_BUSY_LOW), self)

/-- new: stores the default background color and runs init. -/
def new : Outcome × State :=
  init { color := DEFAULT_BACKGROUND_COLOR }

/-- wake_up: re-runs init. -/
def wake_up (self : State) : Outcome × State :=
  init self

def sleep (self : State) : Outcome × State :=
  (.ok (DisplayInterface.wait_until_idle IS_BUSY_LOW ++
      DisplayInterface.cmd .PowerOff ++
      DisplayInterface.wait_until_idle IS_BUSY_LOW ++
      DisplayInterface.cmd_with_data .DeepSleep [0xA5]), self)

def set_background_color (_self : State) (color : Color) : State :=
  { color := color }

def background_color (self : State) : Color :=
  self.color

/-- One iteration of the packed multi-level inner loop: from the running
8-bit temp, one output byte (high nibble from the current top bit, low
nibble from the next) and the temp shifted left twice. -/
def encode_step (temp : Nat) : Nat × Nat :=
  let d1 : Nat := if temp &&& 0x80 = 0 then 0x00 else 0x03
  let t1 := temp <<< 1 % 256
  let d2 : Nat := if t1 &&& 0x80 = 0 then 0x00 else 0x03
  let t2 := t1 <<< 1 % 256
  ((d1 <<< 4) ||| d2, t2)

/-- The packed multi-level encoding of one source byte: the four output
bytes the update_frame inner loop sends for it. -/
def encode_byte (b : Nat) : List Nat :=
  let s0 := encode_step (b % 256)
  let s1 := encode_step s0.2
  let s2 := encode_step s1.2
  let s3 := encode_step s2.2
  [s0.1, s1.1, s2.1, s3.1]

/-- update_frame: waits idle, then streams each source byte expanded to four
packed multi-level data bytes. -/
def update_frame (self : State) (buffer : List Nat) : Outcome × State :=
  (.ok (DisplayInterface.wait_until_idle IS_BUSY_LOW ++
      DisplayInterface.cmd .DataStartTransmission1 ++
      (buffer.flatMap encode_byte).map Event.data), self)

/-- update_partial_frame is unimplemented!: an unconditional panic with no
traffic. -/
def update_partial_frame (self : State) (_buffer : List Nat)
    (_x _y _width _height : Nat) : Outcome × State :=
  (.panic [], self)

/-- display_frame: waits idle first, then issues the refresh command and
returns without a trailing busy-wait. -/
def display_frame (self : State) : Outcome × State :=
  (.ok (DisplayInterface.wait_until_idle IS_BUSY_LOW ++
      DisplayInterface.cmd .DisplayRefresh), self)

/-- update_and_display_frame: update_frame, then the refresh command
directly. -/
def update_and_display_frame (self : State) (buffer : List Nat) :
    Outcome × State :=
  ((update_frame self buffer).1.andThen
    (.ok (DisplayInterface.cmd .DisplayRefresh)), self)

/-- clear_frame: waits idle, sends the resolution, then streams the fixed
byte 0x33 for the whole expanded frame. -/
def clear_frame (self : State) : Outcome × State :=
  (.ok (DisplayInterface.wait_until_idle IS_BUSY_LOW ++
      send_resolution ++
      DisplayInterface.cmd .DataStartTransmission1 ++
      DisplayInterface.data_x_times 0x33 (WIDTH / 8 * HEIGHT * 4)), self)

/-- set_lut is unimplemented!: an unconditional panic with no traffic. -/
def set_lut (self : State) : Outcome × State :=
  (.panic [], self)

end Epd7in5

namespace Epd7in5Hd

def WIDTH : Nat := 880

def HEIGHT : Nat := 528

def DEFAULT_BACKGROUND_COLOR : Color := Color.White

def IS_BUSY_LOW : Bool := false

/-- Driver state of the Epd7in5 HD driver: the stored background color. -/
structure State where
  color : Color
deriving DecidableEq, Repr

def wait_until_idle (self : State) : Outcome × State :=
  (.ok (DisplayInterface.wait_until_idle IS_BUSY_LOW), self)

/-- init: reset, software reset, RAM auto-write patterns, soft start, driver
output, data entry, RAM windows, border, temperature, update control, master
activation, RAM address counters, with busy-waits as in the vendor code. -/
def init (self : State) : Outcome × State :=
  (.ok (DisplayInterface.reset 10000 2000 ++
      DisplayInterface.wait_until_idle IS_BUSY_LOW ++
      DisplayInterface.cmd .SwReset ++
      DisplayInterface.wait_until_idle IS_BUSY_LOW ++
      DisplayInterface.cmd_with_data .AutoWriteRed [0xF7] ++
      DisplayInterface.wait_until_idle IS_BUSY_LOW ++
      DisplayInterface.cmd_with_data .AutoWriteBw [0xF7] ++
      DisplayInterface.wait_until_idle IS_BUSY_LOW ++
      DisplayInterface.cmd_with_data .SoftStart [0xAE, 0xC7, 0xC3, 0xC0, 0x40] ++
      DisplayInterface.cmd_with_data .DriverOutputControl [0xAF, 0x02, 0x01] ++
      DisplayInterface.cmd_with_data .DataEntry [0x01] ++
      DisplayInterface.cmd_with_data .SetRamXStartEnd [0x00, 0x00, 0x6F, 0x03] ++
      DisplayInterface.cmd_with_data .SetRamYStartEnd [0xAF, 0x02, 0x00, 0x00] ++
      DisplayInterface.cmd_with_data .VbdControl [0x05] ++
      DisplayInterface.cmd_with_data .TemperatureSensorControl [0x80] ++
      DisplayInterface.cmd_with_data .DisplayUpdateControl2 [0xB1] ++
      DisplayInterface.cmd .MasterActivation ++
      DisplayInterface.wait_until_idle IS_BUSY_LOW ++
      DisplayInterface.cmd_with_data .SetRamXAc [0x00, 0x00] ++
      DisplayInterface.cmd_with_data .SetRamYAc [0x00, 0x00]), self)

/-- new: stores the default background color and runs init. -/
def new : Outcome × State :=
  init { color := DEFAULT_BACKGROUND_COLOR }

/-- wake_up: re-runs init. -/
def wake_up (self : State) : Outcome × State :=
  init self

def sleep (self : State) : Outcome × State :=
  (.ok (DisplayInterface.wait_until_idle IS_BUSY_LOW ++
      DisplayInterface.cmd_with_data .DeepSleep [0x01]), self)

def set_background_color (_self : State) (color : Color) : State :=
  { color := color }

def background_color (self : State) : Color :=
  self.color

/-- update_frame: waits idle, resets the RAM Y counter, writes the buffer to
black/white RAM, sets the update control mode. -/
def update_frame (self : State) (buffer : List Nat) : Outcome × State :=
  (.ok (DisplayInterface.wait_until_idle IS_BUSY_LOW ++
      DisplayInterface.cmd_with_data .SetRamYAc [0x00, 0x00] ++
      DisplayInterface.cmd_with_data .WriteRamBw buffer ++
      DisplayInterface.cmd_with_data .DisplayUpdateControl2 [0xF7]), self)

/-- update_partial_frame is unimplemented!: an unconditional panic with no
traffic. -/
def update_partial_frame (self : State) (_buffer : List Nat)
    (_x _y _width _height : Nat) : Outcome × State :=
  (.panic [], self)

def display_frame (self : State) : Outcome × State :=
  (.ok (DisplayInterface.cmd .MasterActivation ++
      DisplayInterface.wait_until_idle IS_BUSY_LOW), self)

def update_and_display_frame (self : State) (buffer : List Nat) :
    Outcome × State :=
  ((update_frame self buffer).1.andThen (display_frame self).1, self)

/-- clear_frame: waits idle, resets the RAM Y counter, fills both RAM planes
with the current background color's byte value, then refreshes. -/
def clear_frame (self : State) : Outcome × State :=
  (.ok (DisplayInterface.wait_until_idle IS_BUSY_LOW ++
      DisplayInterface.cmd_with_data .SetRamYAc [0x00, 0x00] ++
      DisplayInterface.cmd .WriteRamBw ++
      DisplayInterface.data_x_times self.color.get_byte_value
        (WIDTH * HEIGHT / 8) ++
      DisplayInterface.cmd .WriteRamRed ++
      DisplayInterface.data_x_times self.color.get_byte_value
        (WIDTH * HEIGHT / 8) ++
      DisplayInterface.cmd_with_data .DisplayUpdateControl2 [0xF7] ++
      DisplayInterface.cmd .MasterActivation ++
      DisplayInterface.wait_until_idle IS_BUSY_LOW), self)

/-- set_lut is unimplemented!: an unconditional panic with no traffic. -/
def set_lut (self : State) : Outcome × State :=
  (.panic [], self)

end Epd7in5Hd

/-- A trace that already failed determines the run of any extension: the
appended part is never reached. -/
theorem runBus_append_fail (a b : List Event) :
    ∀ fuel, (runBus fuel a).2 = none → runBus fuel (a ++ b) = runBus fuel a := by
  induction a with
  | nil => intro fuel h; simp [runBus] at h
  | cons e a ih =>
    intro fuel h
    by_cases he : e.isBus
    · cases fuel with
      | zero => simp [runBus, he]
      | succ f =>
        simp only [runBus, he, if_true, List.cons_append, List.append_eq] at h ⊢
        rw [ih f h]
    · simp only [runBus, he, if_false, Bool.false_eq_true, List.cons_append,
        List.append_eq] at h ⊢
      rw [ih fuel h]

/-- Every event a run emits occurs in the trace it ran. -/
theorem runBus_mem (tr : List Event) :
    ∀ fuel e, e ∈ (runBus fuel tr).1 → e ∈ tr := by
  induction tr with
  | nil => intro fuel e h; simp [runBus] at h
  | cons x tr ih =>
    intro fuel e h
    by_cases hx : x.isBus
    · cases fuel with
      | zero => simp [runBus, hx] at h
      | succ f =>
        simp only [runBus, hx, if_true, List.mem_cons] at h
        cases h with
        | inl h => simp [h]
        | inr h => exact List.mem_cons_of_mem _ (ih f e h)
    · simp only [runBus, hx, if_false, Bool.false_eq_true, List.mem_cons] at h
      cases h with
      | inl h => simp [h]
      | inr h => exact List.mem_cons_of_mem _ (ih fuel e h)

/-- The bus-byte count of a cons. -/
theorem countBus_cons (e : Event) (tr : List Event) :
    countBus (e :: tr) = if e.isBus then countBus tr + 1 else countBus tr := by
  by_cases he : e.isBus <;> simp [countBus, busFilter, he]

/-- The run of a trace returns normally exactly when the bus budget covers
its bus-byte count. -/
theorem runBus_isSome_iff (tr : List Event) :
    ∀ fuel, ((runBus fuel tr).2.isSome ↔ countBus tr ≤ fuel) := by
  induction tr with
  | nil => intro fuel; simp [runBus, countBus, busFilter]
  | cons e tr ih =>
    intro fuel
    by_cases he : e.isBus
    · cases fuel with
      | zero => simp [runBus, he, countBus_cons]
      | succ f => simp [runBus, he, countBus_cons, ih f, Nat.succ_le_succ_iff]
    · simp [runBus, he, countBus_cons, ih fuel]

/-- Bus-byte counts add over concatenation. -/
theorem countBus_append (a b : List Event) :
    countBus (a ++ b) = countBus a + countBus b := by
  simp [countBus, busFilter]

set_option maxRecDepth 8192

/-- Claim C9: for every driver model and every configuration, wake_up
produces exactly the same command/data byte trace as the init step run
during construction (new): the round trip sleep-then-wake_up re-runs the
identical init sequence. Stated as: wake_up is the same operation as init,
and its trace equals the trace of the init step new runs. -/
theorem wake_up_reruns_init :
    (∀ (lv lw lb lwb lbb : List Nat) (s : Epd2in7b.State),
      Epd2in7b.wake_up lv lw lb lwb lbb s = Epd2in7b.init lv lw lb lwb lbb s ∧
      (Epd2in7b.wake_up lv lw lb lwb lbb s).1.tr =
        (Epd2in7b.new lv lw lb lwb lbb).1.tr) ∧
    (∀ (lgc ldu : List Nat) (s : EPD3in7.State),
      EPD3in7.wake_up lgc ldu s = EPD3in7.init lgc ldu s ∧
      (EPD3in7.wake_up lgc ldu s).1.tr = (EPD3in7.new lgc ldu).1.tr) ∧
    (∀ s : Epd1in54c.State,
      Epd1in54c.wake_up s = Epd1in54c.init s ∧
      (Epd1in54c.wake_up s).1.tr = Epd1in54c.new.1.tr) ∧
    (∀ s : Epd2in9bc.State,
      Epd2in9bc.wake_up s = Epd2in9bc.init s ∧
      (Epd2in9bc.wake_up s).1.tr = Epd2in9bc.new.1.tr) ∧
    (∀ s : Epd7in5.State,
      Epd7in5.wake_up s = Epd7in5.init s ∧
      (Epd7in5.wake_up s).1.tr = Epd7in5.new.1.tr) ∧
    (∀ s : Epd7in5Hd.State,
      Epd7in5Hd.wake_up s = Epd7in5Hd.init s ∧
      (Epd7in5Hd.wake_up s).1.tr = Epd7in5Hd.new.1.tr) :=
  ⟨fun _ _ _ _ _ _ => ⟨rfl, rfl⟩, fun _ _ _ => ⟨rfl, rfl⟩,
    fun _ => ⟨rfl, rfl⟩, fun _ => ⟨rfl, rfl⟩,
    fun _ => ⟨rfl, rfl⟩, fun _ => ⟨rfl, rfl⟩⟩

/-- Claim C2 (status: divergence between spec and code): no driver model
reports the partial-refresh capability as unsupported via an explicit error
result. Epd2in9bc.update_partial_frame silently succeeds as a no-op (a
normal return with no bus traffic); the other four models lacking hardware
partial refresh panic (todo!/unimplemented!) instead of returning an error. -/
theorem update_partial_frame_never_explicit_unsupported :
    (∀ (s : Epd2in9bc.State) (buf : List Nat) (x y w h : Nat),
      Epd2in9bc.update_partial_frame s buf x y w h = (Outcome.ok [], s)) ∧
    (∀ (s : Epd1in54c.State) (buf : List Nat) (x y w h : Nat),
      Epd1in54c.update_partial_frame s buf x y w h = (Outcome.panic [], s)) ∧
    (∀ (s : EPD3in7.State) (buf : List Nat) (x y w h : Nat),
      EPD3in7.update_partial_frame s buf x y w h = (Outcome.panic [], s)) ∧
    (∀ (s : Epd7in5.State) (buf : List Nat) (x y w h : Nat),
      Epd7in5.update_partial_frame s buf x y w h = (Outcome.panic [], s)) ∧
    (∀ (s : Epd7in5Hd.State) (buf : List Nat) (x y w h : Nat),
      Epd7in5Hd.update_partial_frame s buf x y w h = (Outcome.panic [], s)) :=
  ⟨fun _ _ _ _ _ _ => rfl, fun _ _ _ _ _ _ => rfl, fun _ _ _ _ _ _ => rfl,
    fun _ _ _ _ _ _ => rfl, fun _ _ _ _ _ _ => rfl⟩

/-- Claim C3, counterexample: Epd7in5.display_frame waits until idle before
issuing the refresh command, and the refresh command is the last event of
the trace, so no busy-wait happens after the refresh command before the
call returns. -/
theorem display_frame_epd7in5_waits_before_refresh :
    (Epd7in5.display_frame { color := Color.White }).1.tr =
      [Event.wait_idle true, Event.cmd Cmd.DisplayRefresh] ∧
    ((Epd7in5.display_frame { color := Color.White }).1.tr).getLast? =
      some (Event.cmd Cmd.DisplayRefresh) :=
  ⟨rfl, rfl⟩

/-- Claim C3, amended: every driver model except epd7in5 issues its refresh
command and then invokes the busy-wait before display_frame returns;
epd7in5 instead waits until idle first and returns immediately after
issuing the refresh command, with no busy-wait after it. -/
theorem display_frame_refresh_then_wait :
    (∀ s : Epd2in7b.State, (Epd2in7b.display_frame s).1.tr =
      [Event.cmd Cmd.DisplayRefresh, Event.wait_idle true]) ∧
    (∀ s : EPD3in7.State, (EPD3in7.display_frame s).1.tr =
      [Event.cmd Cmd.DisplayUpdateSequence, Event.wait_idle false]) ∧
    (∀ s : Epd1in54c.State, (Epd1in54c.display_frame s).1.tr =
      [Event.cmd Cmd.DisplayRefresh, Event.wait_idle true]) ∧
    (∀ s : Epd2in9bc.State, (Epd2in9bc.display_frame s).1.tr =
      [Event.cmd Cmd.DisplayRefresh, Event.wait_idle true]) ∧
    (∀ s : Epd7in5Hd.State, (Epd7in5Hd.display_frame s).1.tr =
      [Event.cmd Cmd.MasterActivation, Event.wait_idle false]) ∧
    (∀ s : Epd7in5.State, (Epd7in5.display_frame s).1.tr =
      [Event.wait_idle true, Event.cmd Cmd.DisplayRefresh]) :=
  ⟨fun _ => rfl, fun _ => rfl, fun _ => rfl, fun _ => rfl,
    fun _ => rfl, fun _ => rfl⟩

/-- Claim C10: for every driver model, every bus-facing operation leaves the
stored background color unchanged; set_background_color is the only
operation that modifies it, background_color returns the last value set,
and after construction the stored color is the model default. -/
theorem background_color_frame_effect :
    (∀ (lv lw lb lwb lbb : List Nat) (s : Epd2in7b.State) (c : Color)
        (buf buf2 : List Nat) (x y w h : Nat),
      (Epd2in7b.init lv lw lb lwb lbb s).2 = s ∧
      (Epd2in7b.wake_up lv lw lb lwb lbb s).2 = s ∧
      (Epd2in7b.sleep s).2 = s ∧
      (Epd2in7b.update_frame s buf).2 = s ∧
      (Epd2in7b.update_partial_frame s buf x y w h).2 = s ∧
      (Epd2in7b.display_frame s).2 = s ∧
      (Epd2in7b.update_and_display_frame s buf).2 = s ∧
      (Epd2in7b.clear_frame s).2 = s ∧
      (Epd2in7b.set_lut lv lw lb lwb lbb s).2 = s ∧
      (Epd2in7b.wait_until_idle s).2 = s ∧
      (Epd2in7b.update_color_frame s buf buf2).2 = s ∧
      (Epd2in7b.update_achromatic_frame s buf).2 = s ∧
      (Epd2in7b.update_chromatic_frame s buf).2 = s ∧
      Epd2in7b.background_color (Epd2in7b.set_background_color s c) = c ∧
      (Epd2in7b.new lv lw lb lwb lbb).2.color =
        Epd2in7b.DEFAULT_BACKGROUND_COLOR) ∧
    (∀ (lgc ldu : List Nat) (s : EPD3in7.State) (c : Color)
        (buf : List Nat) (x y w h : Nat),
      (EPD3in7.init lgc ldu s).2 = s ∧
      (EPD3in7.wake_up lgc ldu s).2 = s ∧
      (EPD3in7.sleep s).2 = s ∧
      (EPD3in7.update_frame s buf).2 = s ∧
      (EPD3in7.update_partial_frame s buf x y w h).2 = s ∧
      (EPD3in7.display_frame s).2 = s ∧
      (EPD3in7.update_and_display_frame s buf).2 = s ∧
      (EPD3in7.clear_frame s).2 = s ∧
      (∀ rr, (EPD3in7.set_lut lgc ldu s rr).2 = s) ∧
      (EPD3in7.wait_until_idle s).2 = s ∧
      EPD3in7.background_color (EPD3in7.set_background_color s c) = c ∧
      (EPD3in7.new lgc ldu).2.background_color =
        EPD3in7.DEFAULT_BACKGROUND_COLOR) ∧
    (∀ (s : Epd1in54c.State) (c : Color) (buf buf2 : List Nat) (x y w h : Nat),
      (Epd1in54c.init s).2 = s ∧
      (Epd1in54c.wake_up s).2 = s ∧
      (Epd1in54c.sleep s).2 = s ∧
      (Epd1in54c.update_frame s buf).2 = s ∧
      (Epd1in54c.update_partial_frame s buf x y w h).2 = s ∧
      (Epd1in54c.display_frame s).2 = s ∧
      (Epd1in54c.update_and_display_frame s buf).2 = s ∧
      (Epd1in54c.clear_frame s).2 = s ∧
      (Epd1in54c.set_lut s).2 = s ∧
      (Epd1in54c.wait_until_idle s).2 = s ∧
      (Epd1in54c.update_color_frame s buf buf2).2 = s ∧
      (Epd1in54c.update_achromatic_frame s buf).2 = s ∧
      (Epd1in54c.update_chromatic_frame s buf).2 = s ∧
      Epd1in54c.background_color (Epd1in54c.set_background_color s c) = c ∧
      Epd1in54c.new.2.color = Epd1in54c.DEFAULT_BACKGROUND_COLOR) ∧
    (∀ (s : Epd2in9bc.State) (c : Color) (buf buf2 : List Nat) (x y w h : Nat),
      (Epd2in9bc.init s).2 = s ∧
      (Epd2in9bc.wake_up s).2 = s ∧
      (Epd2in9bc.sleep s).2 = s ∧
      (Epd2in9bc.update_frame s buf).2 = s ∧
      (Epd2in9bc.update_partial_frame s buf x y w h).2 = s ∧
      (Epd2in9bc.display_frame s).2 = s ∧
      (Epd2in9bc.update_and_display_frame s buf).2 = s ∧
      (Epd2in9bc.clear_frame s).2 = s ∧
      (Epd2in9bc.set_lut s).2 = s ∧
      (Epd2in9bc.wait_until_idle s).2 = s ∧
      (Epd2in9bc.update_color_frame s buf buf2).2 = s ∧
      (Epd2in9bc.update_achromatic_frame s buf).2 = s ∧
      (Epd2in9bc.update_chromatic_frame s buf).2 = s ∧
      Epd2in9bc.background_color (Epd2in9bc.set_background_color s c) = c ∧
      Epd2in9bc.new.2.color = Epd2in9bc.DEFAULT_BACKGROUND_COLOR) ∧
    (∀ (s : Epd7in5.State) (c : Color) (buf : List Nat) (x y w h : Nat),
      (Epd7in5.init s).2 = s ∧
      (Epd7in5.wake_up s).2 = s ∧
      (Epd7in5.sleep s).2 = s ∧
      (Epd7in5.update_frame s buf).2 = s ∧
      (Epd7in5.update_partial_frame s buf x y w h).2 = s ∧
      (Epd7in5.display_frame s).2 = s ∧
      (Epd7in5.update_and_display_frame s buf).2 = s ∧
      (Epd7in5.clear_frame s).2 = s ∧
      (Epd7in5.set_lut s).2 = s ∧
      (Epd7in5.wait_until_idle s).2 = s ∧
      Epd7in5.background_color (Epd7in5.set_background_color s c) = c ∧
      Epd7in5.new.2.color = Epd7in5.DEFAULT_BACKGROUND_COLOR) ∧
    (∀ (s : Epd7in5Hd.State) (c : Color) (buf : List Nat) (x y w h : Nat),
      (Epd7in5Hd.init s).2 = s ∧
      (Epd7in5Hd.wake_up s).2 = s ∧
      (Epd7in5Hd.sleep s).2 = s ∧
      (Epd7in5Hd.update_frame s buf).2 = s ∧
      (Epd7in5Hd.update_partial_frame s buf x y w h).2 = s ∧
      (Epd7in5Hd.display_frame s).2 = s ∧
      (Epd7in5Hd.update_and_display_frame s buf).2 = s ∧
      (Epd7in5Hd.clear_frame s).2 = s ∧
      (Epd7in5Hd.set_lut s).2 = s ∧
      (Epd7in5Hd.wait_until_idle s).2 = s ∧
      Epd7in5Hd.background_color (Epd7in5Hd.set_background_color s c) = c ∧
      Epd7in5Hd.new.2.color = Epd7in5Hd.DEFAULT_BACKGROUND_COLOR) := by
  refine ⟨?_, ?_, ?_, ?_, ?_, ?_⟩ <;> intros <;>
    (repeat' apply And.intro) <;> (try intro _) <;> rfl


/-- Claim C5 (status: divergence between paths): for epd2in7b with the
default White background, update_frame clears the chromatic plane with the
inverted background byte (0x00 = inv8 0xFF), but clear_frame streams the
uninverted background byte 0xFF for both planes — the bitwise inversion is
not applied on the clear_frame path, so the two fill bytes differ. -/
theorem epd2in7b_inversion_inconsistent :
    (Epd2in7b.update_frame { color := Color.White } []).1.tr =
      DisplayInterface.cmd .DataStartTransmission1 ++
        Epd2in7b.send_buffer_helper [] ++
        DisplayInterface.cmd .DataStartTransmission2 ++
        DisplayInterface.data_x_times 0 (Epd2in7b.WIDTH * Epd2in7b.HEIGHT / 8) ++
        DisplayInterface.cmd .DataStop ∧
    (Epd2in7b.clear_frame { color := Color.White }).1.tr =
      DisplayInterface.wait_until_idle true ++
        DisplayInterface.cmd .DataStartTransmission1 ++
        DisplayInterface.data_x_times 255 (Epd2in7b.WIDTH * Epd2in7b.HEIGHT / 8) ++
        DisplayInterface.cmd .DataStop ++
        DisplayInterface.cmd .DataStartTransmission2 ++
        DisplayInterface.data_x_times 255 (Epd2in7b.WIDTH * Epd2in7b.HEIGHT / 8) ++
        DisplayInterface.cmd .DataStop ∧
    Epd2in7b.WIDTH * Epd2in7b.HEIGHT / 8 = 5808 ∧
    inv8 Color.White.get_byte_value = 0 ∧
    Color.White.get_byte_value = 255 ∧
    (255 : Nat) ≠ inv8 Color.White.get_byte_value :=
  ⟨rfl, rfl, rfl, rfl, rfl, by decide⟩

/-- Claim C6, counterexample: for epd1in54c with the stored background color
set to Black (wire byte 0x00), clear_frame streams the byte 0xFF (the
default White background) as the repeated fill value for both planes, not
the current background color's byte. -/
theorem epd1in54c_clear_frame_ignores_current_color :
    (Epd1in54c.clear_frame { color := Color.Black }).1.tr =
      DisplayInterface.wait_until_idle true ++
        DisplayInterface.cmd .DataStartTransmission1 ++
        DisplayInterface.data_x_times 255 Epd1in54c.NUM_DISPLAY_BITS ++
        DisplayInterface.cmd .DataStartTransmission2 ++
        DisplayInterface.data_x_times 255 Epd1in54c.NUM_DISPLAY_BITS ∧
    Epd1in54c.NUM_DISPLAY_BITS = 2888 ∧
    Color.Black.get_byte_value = 0 ∧
    (255 : Nat) ≠ 0 :=
  ⟨rfl, rfl, rfl, by decide⟩

/-- Claim C6, amended: clear_frame streams the current background color's
byte value on epd2in7b, epd3in7 and epd7in5_hd; epd1in54c and epd2in9bc
always stream the default White background byte 0xFF regardless of the
stored color; epd7in5 streams the fixed byte 0x33. -/
theorem clear_frame_fill_bytes (c : Color) :
    (Epd2in7b.clear_frame { color := c }).1.tr =
      DisplayInterface.wait_until_idle true ++
        DisplayInterface.cmd .DataStartTransmission1 ++
        DisplayInterface.data_x_times c.get_byte_value
          (Epd2in7b.WIDTH * Epd2in7b.HEIGHT / 8) ++
        DisplayInterface.cmd .DataStop ++
        DisplayInterface.cmd .DataStartTransmission2 ++
        DisplayInterface.data_x_times c.get_byte_value
          (Epd2in7b.WIDTH * Epd2in7b.HEIGHT / 8) ++
        DisplayInterface.cmd .DataStop ∧
    (EPD3in7.clear_frame { background_color := c }).1.tr =
      DisplayInterface.cmd_with_data .SetRamXAddressCounter [0x00, 0x00] ++
        DisplayInterface.cmd_with_data .SetRamYAddressCounter [0x00, 0x00] ++
        DisplayInterface.cmd .WriteRam ++
        DisplayInterface.data_x_times c.get_byte_value
          (EPD3in7.WIDTH * EPD3in7.HEIGHT) ∧
    (Epd7in5Hd.clear_frame { color := c }).1.tr =
      DisplayInterface.wait_until_idle false ++
        DisplayInterface.cmd_with_data .SetRamYAc [0x00, 0x00] ++
        DisplayInterface.cmd .WriteRamBw ++
        DisplayInterface.data_x_times c.get_byte_value
          (Epd7in5Hd.WIDTH * Epd7in5Hd.HEIGHT / 8) ++
        DisplayInterface.cmd .WriteRamRed ++
        DisplayInterface.data_x_times c.get_byte_value
          (Epd7in5Hd.WIDTH * Epd7in5Hd.HEIGHT / 8) ++
        DisplayInterface.cmd_with_data .DisplayUpdateControl2 [0xF7] ++
        DisplayInterface.cmd .MasterActivation ++
        DisplayInterface.wait_until_idle false ∧
    (Epd1in54c.clear_frame { color := c }).1.tr =
      DisplayInterface.wait_until_idle true ++
        DisplayInterface.cmd .DataStartTransmission1 ++
        DisplayInterface.data_x_times 255 Epd1in54c.NUM_DISPLAY_BITS ++
        DisplayInterface.cmd .DataStartTransmission2 ++
        DisplayInterface.data_x_times 255 Epd1in54c.NUM_DISPLAY_BITS ∧
    (Epd2in9bc.clear_frame { color := c }).1.tr =
      Epd2in9bc.send_resolution ++
        DisplayInterface.cmd .DataStartTransmission1 ++
        DisplayInterface.data_x_times 255 Epd2in9bc.NUM_DISPLAY_BITS ++
        DisplayInterface.cmd .DataStartTransmission2 ++
        DisplayInterface.data_x_times 255 Epd2in9bc.NUM_DISPLAY_BITS ++
        DisplayInterface.wait_until_idle true ∧
    (Epd7in5.clear_frame { color := c }).1.tr =
      DisplayInterface.wait_until_idle true ++
        Epd7in5.send_resolution ++
        DisplayInterface.cmd .DataStartTransmission1 ++
        DisplayInterface.data_x_times 0x33
          (Epd7in5.WIDTH / 8 * Epd7in5.HEIGHT * 4) ∧
    Epd2in7b.WIDTH * Epd2in7b.HEIGHT / 8 = 5808 ∧
    EPD3in7.WIDTH * EPD3in7.HEIGHT = 134400 ∧
    Epd7in5Hd.WIDTH * Epd7in5Hd.HEIGHT / 8 = 58080 ∧
    Epd1in54c.NUM_DISPLAY_BITS = 2888 ∧
    Epd2in9bc.NUM_DISPLAY_BITS = 4736 ∧
    Epd7in5.WIDTH / 8 * Epd7in5.HEIGHT * 4 = 122880 :=
  ⟨rfl, rfl, rfl, rfl, rfl, rfl, rfl, rfl, rfl, rfl, rfl, rfl⟩

/-- The claim-side packed multi-level encoding, written from the spec's
words: each source byte read MSB-first expands to 4 output bytes; output
byte j carries the 2-bit symbols of source bits (7 - 2j) and (7 - 2j - 1),
bit 0 giving symbol 00 (nibble 0x0) and bit 1 giving symbol 11 (nibble
0x3), the first bit of the pair in the high nibble and the second in the
low nibble. Compared against Epd7in5.encode_byte, which is translated from
the update_frame inner loop. -/
def encode_byte_spec (b : Nat) : List Nat :=
  (List.range 4).map (fun j =>
    let hi : Nat := if b.testBit (7 - 2 * j) then 0x3 else 0x0
    let lo : Nat := if b.testBit (7 - (2 * j + 1)) then 0x3 else 0x0
    16 * hi + lo)

/-- Claim C7: for the epd7in5 packed multi-level model, update_frame emits
exactly 4 data bytes per source buffer byte, and for every source byte the
four emitted bytes are exactly those of the spec-side MSB-first bit-pair
encoding (source bit 0 contributes nibble 0x0, bit 1 nibble 0x3, first bit
of each pair in the high nibble). -/
theorem packed_encoding_correct (s : Epd7in5.State) (buffer : List Nat)
    (b : Nat) (hb : b < 256) :
    (Epd7in5.update_frame s buffer).1.tr =
      Event.wait_idle true :: Event.cmd Cmd.DataStartTransmission1 ::
        (buffer.flatMap Epd7in5.encode_byte).map Event.data ∧
    (Epd7in5.encode_byte b).length = 4 ∧
    Epd7in5.encode_byte b = encode_byte_spec b := by
  refine ⟨rfl, rfl, ?_⟩
  exact (by decide : ∀ x, x < 256 → Epd7in5.encode_byte x = encode_byte_spec x)
    b hb

/-- Witness for packed_encoding_correct at the source byte 0xB4
(= 10110100 in binary) and a one-byte buffer. -/
theorem packed_encoding_correct_witness :
    (Epd7in5.update_frame { color := Color.White } [0xB4]).1.tr =
      Event.wait_idle true :: Event.cmd Cmd.DataStartTransmission1 ::
        (([0xB4] : List Nat).flatMap Epd7in5.encode_byte).map Event.data ∧
    (Epd7in5.encode_byte 0xB4).length = 4 ∧
    Epd7in5.encode_byte 0xB4 = encode_byte_spec 0xB4 :=
  packed_encoding_correct { color := Color.White } [0xB4] 0xB4 (by decide)

/-- Masking the low 3 bits of a byte quantizes it down to a multiple of 8. -/
theorem land_248_eq (x : Nat) (hx : x < 256) : x &&& 248 = x / 8 * 8 :=
  (by decide : ∀ n, n < 256 → n &&& 248 = n / 8 * 8) x hx

/-- The high coordinate byte of an in-range coordinate is zero. -/
theorem shift8_eq (x : Nat) (hx : x < 256) : (x >>> 8) % 256 = 0 :=
  (by decide : ∀ n, n < 256 → (n >>> 8) % 256 = 0) x hx

/-- Claim C8: on epd2in7b, update_partial_frame transmits the x coordinate
and the width quantized down to the nearest multiple of 8 (low 3 bits
masked off), never rounded up: the transmitted low bytes are x / 8 * 8 and
width / 8 * 8, both multiples of 8 and at most the requested values. -/
theorem partial_frame_quantizes_down (s : Epd2in7b.State) (buffer : List Nat)
    (x y width height : Nat) (hx : x < 256) (hw : width < 256) :
    (Epd2in7b.update_partial_frame s buffer x y width height).1.tr =
      DisplayInterface.cmd .PartialDataStartTransmission1 ++
        DisplayInterface.data [0] ++
        DisplayInterface.data [x / 8 * 8] ++
        DisplayInterface.data [(y >>> 8) % 256] ++
        DisplayInterface.data [y &&& 0xff] ++
        DisplayInterface.data [0] ++
        DisplayInterface.data [width / 8 * 8] ++
        DisplayInterface.data [(height >>> 8) % 256] ++
        DisplayInterface.data [height &&& 0xff] ++
        DisplayInterface.wait_until_idle true ++
        Epd2in7b.send_buffer_helper buffer ++
        DisplayInterface.cmd .DataStop ∧
    x / 8 * 8 ≤ x ∧ x / 8 * 8 % 8 = 0 ∧
    width / 8 * 8 ≤ width ∧ width / 8 * 8 % 8 = 0 := by
  refine ⟨?_, Nat.div_mul_le_self x 8, Nat.mul_mod_left (x / 8) 8,
    Nat.div_mul_le_self width 8, Nat.mul_mod_left (width / 8) 8⟩
  simp only [Epd2in7b.update_partial_frame, Epd2in7b.command,
    Epd2in7b.send_data, Epd2in7b.IS_BUSY_LOW, Outcome.tr]
  rw [land_248_eq x hx, land_248_eq width hw, shift8_eq x hx,
    shift8_eq width hw]

/-- Witness for partial_frame_quantizes_down at the spec's example
x = 5, width = 10: the transmitted rectangle uses x = 0 and width = 8. -/
theorem partial_frame_quantizes_down_witness :
    (Epd2in7b.update_partial_frame { color := Color.White } [] 5 0 10 20).1.tr =
      DisplayInterface.cmd .PartialDataStartTransmission1 ++
        DisplayInterface.data [0] ++
        DisplayInterface.data [0] ++
        DisplayInterface.data [0] ++
        DisplayInterface.data [0] ++
        DisplayInterface.data [0] ++
        DisplayInterface.data [8] ++
        DisplayInterface.data [0] ++
        DisplayInterface.data [20] ++
        DisplayInterface.wait_until_idle true ++
        Epd2in7b.send_buffer_helper [] ++
        DisplayInterface.cmd .DataStop ∧
    0 ≤ 5 ∧ (0 : Nat) % 8 = 0 ∧ 8 ≤ 10 ∧ (8 : Nat) % 8 = 0 :=
  partial_frame_quantizes_down { color := Color.White } [] 5 0 10 20
    (by decide) (by decide)

/-- Claim C1, counterexample: epd2in9bc's update_frame performs no buffer
length validation: called with an empty buffer (length 0, not the expected
buffer_len), it returns success and issues bus traffic (its first event is
the data-transmission command byte). -/
theorem epd2in9bc_update_frame_unchecked :
    (0 : Nat) ≠ buffer_len Epd2in9bc.WIDTH Epd2in9bc.HEIGHT ∧
    (Epd2in9bc.update_frame { color := Color.White } []).1.isOk = true ∧
    ((Epd2in9bc.update_frame { color := Color.White } []).1.tr).head? =
      some (Event.cmd Cmd.DataStartTransmission1) :=
  ⟨by decide, rfl, rfl⟩

/-- Claim C1, amended: only EPD3in7 validates the buffer length against the
geometry, and a mismatch panics (a failed assertion, not an error return)
before any bus traffic is issued (its emitted trace is empty); the other
five models perform no length validation: for a buffer of any wrong length
they return success and issue bus traffic. -/
theorem update_frame_length_validation (buf : List Nat) (c : Color)
    (hbad : buf.length ≠ buffer_len EPD3in7.WIDTH EPD3in7.HEIGHT) :
    (EPD3in7.update_frame { background_color := c } buf).1 = Outcome.panic [] ∧
    (Epd2in7b.update_frame { color := c } buf).1.isOk = true ∧
    ((Epd2in7b.update_frame { color := c } buf).1.tr).head? =
      some (Event.cmd Cmd.DataStartTransmission1) ∧
    (Epd1in54c.update_frame { color := c } buf).1.isOk = true ∧
    ((Epd1in54c.update_frame { color := c } buf).1.tr).get? 1 =
      some (Event.cmd Cmd.DataStartTransmission1) ∧
    (Epd2in9bc.update_frame { color := c } buf).1.isOk = true ∧
    ((Epd2in9bc.update_frame { color := c } buf).1.tr).head? =
      some (Event.cmd Cmd.DataStartTransmission1) ∧
    (Epd7in5.update_frame { color := c } buf).1.isOk = true ∧
    ((Epd7in5.update_frame { color := c } buf).1.tr).get? 1 =
      some (Event.cmd Cmd.DataStartTransmission1) ∧
    (Epd7in5Hd.update_frame { color := c } buf).1.isOk = true ∧
    ((Epd7in5Hd.update_frame { color := c } buf).1.tr).get? 1 =
      some (Event.cmd Cmd.SetRamYAc) := by
  refine ⟨?_, rfl, rfl, rfl, rfl, rfl, rfl, rfl, rfl, rfl, rfl⟩
  simp only [EPD3in7.update_frame]
  rw [if_neg hbad]

/-- Witness for update_frame_length_validation at the empty buffer. -/
theorem update_frame_length_validation_witness :
    (EPD3in7.update_frame { background_color := Color.White } []).1 =
      Outcome.panic [] ∧
    (Epd2in7b.update_frame { color := Color.White } []).1.isOk = true ∧
    ((Epd2in7b.update_frame { color := Color.White } []).1.tr).head? =
      some (Event.cmd Cmd.DataStartTransmission1) ∧
    (Epd1in54c.update_frame { color := Color.White } []).1.isOk = true ∧
    ((Epd1in54c.update_frame { color := Color.White } []).1.tr).get? 1 =
      some (Event.cmd Cmd.DataStartTransmission1) ∧
    (Epd2in9bc.update_frame { color := Color.White } []).1.isOk = true ∧
    ((Epd2in9bc.update_frame { color := Color.White } []).1.tr).head? =
      some (Event.cmd Cmd.DataStartTransmission1) ∧
    (Epd7in5.update_frame { color := Color.White } []).1.isOk = true ∧
    ((Epd7in5.update_frame { color := Color.White } []).1.tr).get? 1 =
      some (Event.cmd Cmd.DataStartTransmission1) ∧
    (Epd7in5Hd.update_frame { color := Color.White } []).1.isOk = true ∧
    ((Epd7in5Hd.update_frame { color := Color.White } []).1.tr).get? 1 =
      some (Event.cmd Cmd.SetRamYAc) :=
  update_frame_length_validation [] Color.White (by decide)

/-- The bus filter distributes over concatenation. -/
theorem busFilter_append (a b : List Event) :
    busFilter (a ++ b) = busFilter a ++ busFilter b := by
  simp [busFilter]

/-- Two traces with the same command/data byte trace succeed under exactly
the same bus budgets. -/
theorem runBus_isSome_congr (t1 t2 : List Event)
    (h : busFilter t1 = busFilter t2) :
    ∀ fuel, ((runBus fuel t1).2).isSome = ((runBus fuel t2).2).isSome := by
  intro fuel
  have hc : countBus t1 = countBus t2 := by unfold countBus; rw [h]
  by_cases hle : countBus t1 ≤ fuel
  · have h1 := (runBus_isSome_iff t1 fuel).2 hle
    have h2 := (runBus_isSome_iff t2 fuel).2 (by rw [← hc]; exact hle)
    rw [h1, h2]
  · have h1 : (runBus fuel t1).2.isSome = false := by
      cases hval : (runBus fuel t1).2.isSome with
      | false => rfl
      | true => exact absurd ((runBus_isSome_iff t1 fuel).1 hval) hle
    have h2 : (runBus fuel t2).2.isSome = false := by
      cases hval : (runBus fuel t2).2.isSome with
      | false => rfl
      | true =>
        exact absurd (by rw [hc]; exact (runBus_isSome_iff t2 fuel).1 hval) hle
    rw [h1, h2]

/-- The refresh command does not occur in epd2in7b's update_frame trace. -/
theorem refresh_notin_update_epd2in7b (s : Epd2in7b.State) (buf : List Nat) :
    Event.cmd Cmd.DisplayRefresh ∉ (Epd2in7b.update_frame s buf).1.tr := by
  simp [Epd2in7b.update_frame, Epd2in7b.command, Epd2in7b.send_buffer_helper,
    DisplayInterface.cmd, DisplayInterface.data_x_times, Outcome.tr,
    List.mem_append, List.mem_map, List.mem_replicate]

/-- The refresh command does not occur in epd3in7's update_frame trace. -/
theorem refresh_notin_update_epd3in7 (s : EPD3in7.State) (buf : List Nat) :
    Event.cmd Cmd.DisplayUpdateSequence ∉ (EPD3in7.update_frame s buf).1.tr := by
  by_cases hlen : buf.length = buffer_len EPD3in7.WIDTH EPD3in7.HEIGHT <;>
    simp [EPD3in7.update_frame, hlen, DisplayInterface.cmd_with_data,
      Outcome.tr, List.mem_append, List.mem_map]

/-- The refresh command does not occur in epd1in54c's update_frame trace. -/
theorem refresh_notin_update_epd1in54c (s : Epd1in54c.State) (buf : List Nat) :
    Event.cmd Cmd.DisplayRefresh ∉ (Epd1in54c.update_frame s buf).1.tr := by
  simp [Epd1in54c.update_frame, Epd1in54c.update_achromatic_frame,
    Epd1in54c.IS_BUSY_LOW, DisplayInterface.cmd, DisplayInterface.cmd_with_data,
    DisplayInterface.data_x_times, DisplayInterface.wait_until_idle,
    Outcome.andThen, Outcome.tr, List.mem_append, List.mem_map,
    List.mem_replicate]

/-- The refresh command does not occur in epd2in9bc's update_frame trace. -/
theorem refresh_notin_update_epd2in9bc (s : Epd2in9bc.State) (buf : List Nat) :
    Event.cmd Cmd.DisplayRefresh ∉ (Epd2in9bc.update_frame s buf).1.tr := by
  simp [Epd2in9bc.update_frame, Epd2in9bc.IS_BUSY_LOW, DisplayInterface.cmd,
    DisplayInterface.data, DisplayInterface.data_x_times,
    DisplayInterface.wait_until_idle, Outcome.tr, List.mem_append,
    List.mem_map, List.mem_replicate]

/-- The refresh command does not occur in epd7in5's update_frame trace. -/
theorem refresh_notin_update_epd7in5 (s : Epd7in5.State) (buf : List Nat) :
    Event.cmd Cmd.DisplayRefresh ∉ (Epd7in5.update_frame s buf).1.tr := by
  simp [Epd7in5.update_frame, Epd7in5.IS_BUSY_LOW, DisplayInterface.cmd,
    DisplayInterface.wait_until_idle, Outcome.tr, List.mem_append,
    List.mem_map]

/-- The refresh command does not occur in the epd7in5 HD update_frame
trace. -/
theorem refresh_notin_update_epd7in5hd (s : Epd7in5Hd.State) (buf : List Nat) :
    Event.cmd Cmd.MasterActivation ∉ (Epd7in5Hd.update_frame s buf).1.tr := by
  simp [Epd7in5Hd.update_frame, Epd7in5Hd.IS_BUSY_LOW, DisplayInterface.cmd,
    DisplayInterface.cmd_with_data, DisplayInterface.wait_until_idle,
    Outcome.tr, List.mem_append, List.mem_map]

/-- The composite/sequential equivalence of claim C4 for epd2in7b. -/
theorem uadf_equiv_epd2in7b (s : Epd2in7b.State) (buf : List Nat) :
    busFilter ((Epd2in7b.update_and_display_frame s buf).1.tr) =
      busFilter (((Epd2in7b.update_frame s buf).1.andThen
        (Epd2in7b.display_frame s).1).tr) ∧
    (Epd2in7b.update_and_display_frame s buf).1.isOk =
      ((Epd2in7b.update_frame s buf).1.andThen
        (Epd2in7b.display_frame s).1).isOk ∧
    (∀ fuel,
      ((runBus fuel ((Epd2in7b.update_and_display_frame s buf).1.tr)).2).isSome =
      ((runBus fuel (((Epd2in7b.update_frame s buf).1.andThen
        (Epd2in7b.display_frame s).1).tr)).2).isSome) ∧
    ∀ fuel, (runBus fuel ((Epd2in7b.update_frame s buf).1.tr)).2 = none →
      runBus fuel ((Epd2in7b.update_and_display_frame s buf).1.tr) =
        runBus fuel ((Epd2in7b.update_frame s buf).1.tr) ∧
      Event.cmd Cmd.DisplayRefresh ∉
        (runBus fuel ((Epd2in7b.update_frame s buf).1.tr)).1 := by
  have ha : busFilter ((Epd2in7b.update_and_display_frame s buf).1.tr) =
      busFilter (((Epd2in7b.update_frame s buf).1.andThen
        (Epd2in7b.display_frame s).1).tr) := by
    show busFilter ((Epd2in7b.update_frame s buf).1.tr ++
        Epd2in7b.command .DisplayRefresh) =
      busFilter ((Epd2in7b.update_frame s buf).1.tr ++
        (Epd2in7b.display_frame s).1.tr)
    rw [busFilter_append, busFilter_append]
    rfl
  refine ⟨ha, rfl, runBus_isSome_congr _ _ ha, ?_⟩
  intro fuel h
  exact ⟨runBus_append_fail _ _ fuel h,
    fun hmem => refresh_notin_update_epd2in7b s buf (runBus_mem _ fuel _ hmem)⟩

/-- The composite/sequential equivalence of claim C4 for epd1in54c. -/
theorem uadf_equiv_epd1in54c (s : Epd1in54c.State) (buf : List Nat) :
    busFilter ((Epd1in54c.update_and_display_frame s buf).1.tr) =
      busFilter (((Epd1in54c.update_frame s buf).1.andThen
        (Epd1in54c.display_frame s).1).tr) ∧
    (Epd1in54c.update_and_display_frame s buf).1.isOk =
      ((Epd1in54c.update_frame s buf).1.andThen
        (Epd1in54c.display_frame s).1).isOk ∧
    (∀ fuel,
      ((runBus fuel ((Epd1in54c.update_and_display_frame s buf).1.tr)).2).isSome =
      ((runBus fuel (((Epd1in54c.update_frame s buf).1.andThen
        (Epd1in54c.display_frame s).1).tr)).2).isSome) ∧
    ∀ fuel, (runBus fuel ((Epd1in54c.update_frame s buf).1.tr)).2 = none →
      runBus fuel ((Epd1in54c.update_and_display_frame s buf).1.tr) =
        runBus fuel ((Epd1in54c.update_frame s buf).1.tr) ∧
      Event.cmd Cmd.DisplayRefresh ∉
        (runBus fuel ((Epd1in54c.update_frame s buf).1.tr)).1 := by
  refine ⟨rfl, rfl, fun fuel => rfl, ?_⟩
  intro fuel h
  exact ⟨runBus_append_fail _ _ fuel h,
    fun hmem => refresh_notin_update_epd1in54c s buf (runBus_mem _ fuel _ hmem)⟩

/-- The composite/sequential equivalence of claim C4 for epd2in9bc. -/
theorem uadf_equiv_epd2in9bc (s : Epd2in9bc.State) (buf : List Nat) :
    busFilter ((Epd2in9bc.update_and_display_frame s buf).1.tr) =
      busFilter (((Epd2in9bc.update_frame s buf).1.andThen
        (Epd2in9bc.display_frame s).1).tr) ∧
    (Epd2in9bc.update_and_display_frame s buf).1.isOk =
      ((Epd2in9bc.update_frame s buf).1.andThen
        (Epd2in9bc.display_frame s).1).isOk ∧
    (∀ fuel,
      ((runBus fuel ((Epd2in9bc.update_and_display_frame s buf).1.tr)).2).isSome =
      ((runBus fuel (((Epd2in9bc.update_frame s buf).1.andThen
        (Epd2in9bc.display_frame s).1).tr)).2).isSome) ∧
    ∀ fuel, (runBus fuel ((Epd2in9bc.update_frame s buf).1.tr)).2 = none →
      runBus fuel ((Epd2in9bc.update_and_display_frame s buf).1.tr) =
        runBus fuel ((Epd2in9bc.update_frame s buf).1.tr) ∧
      Event.cmd Cmd.DisplayRefresh ∉
        (runBus fuel ((Epd2in9bc.update_frame s buf).1.tr)).1 := by
  refine ⟨rfl, rfl, fun fuel => rfl, ?_⟩
  intro fuel h
  exact ⟨runBus_append_fail _ _ fuel h,
    fun hmem => refresh_notin_update_epd2in9bc s buf (runBus_mem _ fuel _ hmem)⟩

/-- The composite/sequential equivalence of claim C4 for the epd7in5 HD
driver. -/
theorem uadf_equiv_epd7in5hd (s : Epd7in5Hd.State) (buf : List Nat) :
    busFilter ((Epd7in5Hd.update_and_display_frame s buf).1.tr) =
      busFilter (((Epd7in5Hd.update_frame s buf).1.andThen
        (Epd7in5Hd.display_frame s).1).tr) ∧
    (Epd7in5Hd.update_and_display_frame s buf).1.isOk =
      ((Epd7in5Hd.update_frame s buf).1.andThen
        (Epd7in5Hd.display_frame s).1).isOk ∧
    (∀ fuel,
      ((runBus fuel ((Epd7in5Hd.update_and_display_frame s buf).1.tr)).2).isSome =
      ((runBus fuel (((Epd7in5Hd.update_frame s buf).1.andThen
        (Epd7in5Hd.display_frame s).1).tr)).2).isSome) ∧
    ∀ fuel, (runBus fuel ((Epd7in5Hd.update_frame s buf).1.tr)).2 = none →
      runBus fuel ((Epd7in5Hd.update_and_display_frame s buf).1.tr) =
        runBus fuel ((Epd7in5Hd.update_frame s buf).1.tr) ∧
      Event.cmd Cmd.MasterActivation ∉
        (runBus fuel ((Epd7in5Hd.update_frame s buf).1.tr)).1 := by
  refine ⟨rfl, rfl, fun fuel => rfl, ?_⟩
  intro fuel h
  exact ⟨runBus_append_fail _ _ fuel h,
    fun hmem => refresh_notin_update_epd7in5hd s buf (runBus_mem _ fuel _ hmem)⟩

/-- The composite/sequential equivalence of claim C4 for epd7in5. -/
theorem uadf_equiv_epd7in5 (s : Epd7in5.State) (buf : List Nat) :
    busFilter ((Epd7in5.update_and_display_frame s buf).1.tr) =
      busFilter (((Epd7in5.update_frame s buf).1.andThen
        (Epd7in5.display_frame s).1).tr) ∧
    (Epd7in5.update_and_display_frame s buf).1.isOk =
      ((Epd7in5.update_frame s buf).1.andThen
        (Epd7in5.display_frame s).1).isOk ∧
    (∀ fuel,
      ((runBus fuel ((Epd7in5.update_and_display_frame s buf).1.tr)).2).isSome =
      ((runBus fuel (((Epd7in5.update_frame s buf).1.andThen
        (Epd7in5.display_frame s).1).tr)).2).isSome) ∧
    ∀ fuel, (runBus fuel ((Epd7in5.update_frame s buf).1.tr)).2 = none →
      runBus fuel ((Epd7in5.update_and_display_frame s buf).1.tr) =
        runBus fuel ((Epd7in5.update_frame s buf).1.tr) ∧
      Event.cmd Cmd.DisplayRefresh ∉
        (runBus fuel ((Epd7in5.update_frame s buf).1.tr)).1 := by
  have ha : busFilter ((Epd7in5.update_and_display_frame s buf).1.tr) =
      busFilter (((Epd7in5.update_frame s buf).1.andThen
        (Epd7in5.display_frame s).1).tr) := by
    show busFilter ((Epd7in5.update_frame s buf).1.tr ++
        DisplayInterface.cmd .DisplayRefresh) =
      busFilter ((Epd7in5.update_frame s buf).1.tr ++
        (Epd7in5.display_frame s).1.tr)
    rw [busFilter_append, busFilter_append]
    rfl
  refine ⟨ha, rfl, runBus_isSome_congr _ _ ha, ?_⟩
  intro fuel h
  exact ⟨runBus_append_fail _ _ fuel h,
    fun hmem => refresh_notin_update_epd7in5 s buf (runBus_mem _ fuel _ hmem)⟩

/-- The composite/sequential equivalence of claim C4 for epd3in7, whose
update_frame can also abort on a buffer length mismatch: the composite then
aborts identically with no traffic, and the display step is skipped. -/
theorem uadf_equiv_epd3in7 (s : EPD3in7.State) (buf : List Nat) :
    busFilter ((EPD3in7.update_and_display_frame s buf).1.tr) =
      busFilter (((EPD3in7.update_frame s buf).1.andThen
        (EPD3in7.display_frame s).1).tr) ∧
    (EPD3in7.update_and_display_frame s buf).1.isOk =
      ((EPD3in7.update_frame s buf).1.andThen
        (EPD3in7.display_frame s).1).isOk ∧
    (∀ fuel,
      ((runBus fuel ((EPD3in7.update_and_display_frame s buf).1.tr)).2).isSome =
      ((runBus fuel (((EPD3in7.update_frame s buf).1.andThen
        (EPD3in7.display_frame s).1).tr)).2).isSome) ∧
    (∀ fuel, (runBus fuel ((EPD3in7.update_frame s buf).1.tr)).2 = none →
      runBus fuel ((EPD3in7.update_and_display_frame s buf).1.tr) =
        runBus fuel ((EPD3in7.update_frame s buf).1.tr) ∧
      Event.cmd Cmd.DisplayUpdateSequence ∉
        (runBus fuel ((EPD3in7.update_frame s buf).1.tr)).1) ∧
    (buf.length ≠ buffer_len EPD3in7.WIDTH EPD3in7.HEIGHT →
      (EPD3in7.update_and_display_frame s buf).1 = Outcome.panic [] ∧
      (EPD3in7.update_frame s buf).1 = Outcome.panic []) := by
  refine ⟨rfl, rfl, fun fuel => rfl, ?_, ?_⟩
  · intro fuel h
    refine ⟨?_, fun hmem =>
      refresh_notin_update_epd3in7 s buf (runBus_mem _ fuel _ hmem)⟩
    by_cases hlen : buf.length = buffer_len EPD3in7.WIDTH EPD3in7.HEIGHT
    · simp only [EPD3in7.update_and_display_frame, EPD3in7.update_frame,
        if_pos hlen, EPD3in7.display_frame, Outcome.andThen, Outcome.tr] at h ⊢
      exact runBus_append_fail _ _ fuel h
    · simp only [EPD3in7.update_frame, if_neg hlen, Outcome.tr] at h
      simp [runBus] at h
  · intro hbad
    have hu : (EPD3in7.update_frame s buf).1 = Outcome.panic [] := by
      simp only [EPD3in7.update_frame]
      rw [if_neg hbad]
    refine ⟨?_, hu⟩
    show (EPD3in7.update_frame s buf).1.andThen (EPD3in7.display_frame s).1 =
      Outcome.panic []
    rw [hu]
    rfl

/-- Claim C4: for every driver model and every buffer,
update_and_display_frame produces exactly the same command/data byte trace
as update_frame sequenced with display_frame, returns the same result, and
under every bus fault budget succeeds exactly when the sequence does; when
update_frame fails, the composite run equals the update_frame run alone and
no refresh command has been issued (on epd3in7 a buffer length mismatch
likewise aborts the composite with no traffic before the display step). -/
theorem update_and_display_frame_equiv :
    (∀ (s : Epd2in7b.State) (buf : List Nat),
      busFilter ((Epd2in7b.update_and_display_frame s buf).1.tr) =
        busFilter (((Epd2in7b.update_frame s buf).1.andThen
          (Epd2in7b.display_frame s).1).tr) ∧
      (Epd2in7b.update_and_display_frame s buf).1.isOk =
        ((Epd2in7b.update_frame s buf).1.andThen
          (Epd2in7b.display_frame s).1).isOk ∧
      (∀ fuel,
        ((runBus fuel ((Epd2in7b.update_and_display_frame s buf).1.tr)).2).isSome =
        ((runBus fuel (((Epd2in7b.update_frame s buf).1.andThen
          (Epd2in7b.display_frame s).1).tr)).2).isSome) ∧
      ∀ fuel, (runBus fuel ((Epd2in7b.update_frame s buf).1.tr)).2 = none →
        runBus fuel ((Epd2in7b.update_and_display_frame s buf).1.tr) =
          runBus fuel ((Epd2in7b.update_frame s buf).1.tr) ∧
        Event.cmd Cmd.DisplayRefresh ∉
          (runBus fuel ((Epd2in7b.update_frame s buf).1.tr)).1) ∧
    (∀ (s : EPD3in7.State) (buf : List Nat),
      busFilter ((EPD3in7.update_and_display_frame s buf).1.tr) =
        busFilter (((EPD3in7.update_frame s buf).1.andThen
          (EPD3in7.display_frame s).1).tr) ∧
      (EPD3in7.update_and_display_frame s buf).1.isOk =
        ((EPD3in7.update_frame s buf).1.andThen
          (EPD3in7.display_frame s).1).isOk ∧
      (∀ fuel,
        ((runBus fuel ((EPD3in7.update_and_display_frame s buf).1.tr)).2).isSome =
        ((runBus fuel (((EPD3in7.update_frame s buf).1.andThen
          (EPD3in7.display_frame s).1).tr)).2).isSome) ∧
      (∀ fuel, (runBus fuel ((EPD3in7.update_frame s buf).1.tr)).2 = none →
        runBus fuel ((EPD3in7.update_and_display_frame s buf).1.tr) =
          runBus fuel ((EPD3in7.update_frame s buf).1.tr) ∧
        Event.cmd Cmd.DisplayUpdateSequence ∉
          (runBus fuel ((EPD3in7.update_frame s buf).1.tr)).1) ∧
      (buf.length ≠ buffer_len EPD3in7.WIDTH EPD3in7.HEIGHT →
        (EPD3in7.update_and_display_frame s buf).1 = Outcome.panic [] ∧
        (EPD3in7.update_frame s buf).1 = Outcome.panic [])) ∧
    (∀ (s : Epd1in54c.State) (buf : List Nat),
      busFilter ((Epd1in54c.update_and_display_frame s buf).1.tr) =
        busFilter (((Epd1in54c.update_frame s buf).1.andThen
          (Epd1in54c.display_frame s).1).tr) ∧
      (Epd1in54c.update_and_display_frame s buf).1.isOk =
        ((Epd1in54c.update_frame s buf).1.andThen
          (Epd1in54c.display_frame s).1).isOk ∧
      (∀ fuel,
        ((runBus fuel ((Epd1in54c.update_and_display_frame s buf).1.tr)).2).isSome =
        ((runBus fuel (((Epd1in54c.update_frame s buf).1.andThen
          (Epd1in54c.display_frame s).1).tr)).2).isSome) ∧
      ∀ fuel, (runBus fuel ((Epd1in54c.update_frame s buf).1.tr)).2 = none →
        runBus fuel ((Epd1in54c.update_and_display_frame s buf).1.tr) =
          runBus fuel ((Epd1in54c.update_frame s buf).1.tr) ∧
        Event.cmd Cmd.DisplayRefresh ∉
          (runBus fuel ((Epd1in54c.update_frame s buf).1.tr)).1) ∧
    (∀ (s : Epd2in9bc.State) (buf : List Nat),
      busFilter ((Epd2in9bc.update_and_display_frame s buf).1.tr) =
        busFilter (((Epd2in9bc.update_frame s buf).1.andThen
          (Epd2in9bc.display_frame s).1).tr) ∧
      (Epd2in9bc.update_and_display_frame s buf).1.isOk =
        ((Epd2in9bc.update_frame s buf).1.andThen
          (Epd2in9bc.display_frame s).1).isOk ∧
      (∀ fuel,
        ((runBus fuel ((Epd2in9bc.update_and_display_frame s buf).1.tr)).2).isSome =
        ((runBus fuel (((Epd2in9bc.update_frame s buf).1.andThen
          (Epd2in9bc.display_frame s).1).tr)).2).isSome) ∧
      ∀ fuel, (runBus fuel ((Epd2in9bc.update_frame s buf).1.tr)).2 = none →
        runBus fuel ((Epd2in9bc.update_and_display_frame s buf).1.tr) =
          runBus fuel ((Epd2in9bc.update_frame s buf).1.tr) ∧
        Event.cmd Cmd.DisplayRefresh ∉
          (runBus fuel ((Epd2in9bc.update_frame s buf).1.tr)).1) ∧
    (∀ (s : Epd7in5.State) (buf : List Nat),
      busFilter ((Epd7in5.update_and_display_frame s buf).1.tr) =
        busFilter (((Epd7in5.update_frame s buf).1.andThen
          (Epd7in5.display_frame s).1).tr) ∧
      (Epd7in5.update_and_display_frame s buf).1.isOk =
        ((Epd7in5.update_frame s buf).1.andThen
          (Epd7in5.display_frame s).1).isOk ∧
      (∀ fuel,
        ((runBus fuel ((Epd7in5.update_and_display_frame s buf).1.tr)).2).isSome =
        ((runBus fuel (((Epd7in5.update_frame s buf).1.andThen
          (Epd7in5.display_frame s).1).tr)).2).isSome) ∧
      ∀ fuel, (runBus fuel ((Epd7in5.update_frame s buf).1.tr)).2 = none →
        runBus fuel ((Epd7in5.update_and_display_frame s buf).1.tr) =
          runBus fuel ((Epd7in5.update_frame s buf).1.tr) ∧
        Event.cmd Cmd.DisplayRefresh ∉
          (runBus fuel ((Epd7in5.update_frame s buf).1.tr)).1) ∧
    (∀ (s : Epd7in5Hd.State) (buf : List Nat),
      busFilter ((Epd7in5Hd.update_and_display_frame s buf).1.tr) =
        busFilter (((Epd7in5Hd.update_frame s buf).1.andThen
          (Epd7in5Hd.display_frame s).1).tr) ∧
      (Epd7in5Hd.update_and_display_frame s buf).1.isOk =
        ((Epd7in5Hd.update_frame s buf).1.andThen
          (Epd7in5Hd.display_frame s).1).isOk ∧
      (∀ fuel,
        ((runBus fuel ((Epd7in5Hd.update_and_display_frame s buf).1.tr)).2).isSome =
        ((runBus fuel (((Epd7in5Hd.update_frame s buf).1.andThen
          (Epd7in5Hd.display_frame s).1).tr)).2).isSome) ∧
      ∀ fuel, (runBus fuel ((Epd7in5Hd.update_frame s buf).1.tr)).2 = none →
        runBus fuel ((Epd7in5Hd.update_and_display_frame s buf).1.tr) =
          runBus fuel ((Epd7in5Hd.update_frame s buf).1.tr) ∧
        Event.cmd Cmd.MasterActivation ∉
          (runBus fuel ((Epd7in5Hd.update_frame s buf).1.tr)).1) :=
  ⟨uadf_equiv_epd2in7b, uadf_equiv_epd3in7, uadf_equiv_epd1in54c,
    uadf_equiv_epd2in9bc, uadf_equiv_epd7in5, uadf_equiv_epd7in5hd⟩
